import Mathlib

/-!
Verification of the SummarizeSite repository (src/summarize2.py) against its
natural-language specification.

The program takes a URL, fetches the page (static HTTP GET first, with a
headless-browser fallback when the static step raises), extracts the title and
the visible body text from the parsed HTML, builds a prompt, calls an external
text-generation service, and prints the returned summary.

The embedding below models:
  - parsed HTML documents as a rose tree of element and text nodes
    (the output of the lenient html parser used by the program);
  - the content-processing pipeline of Website._process_content, including the
    library semantics of soup.title, Tag.string, find_all + decompose and
    get_text with newline separator and per-node stripping;
  - the effectful fetch logic of Website.__init__, _fetch_static and
    _fetch_dynamic, with the outcomes of the external HTTP GET, browser launch
    and page-source retrieval supplied as explicit oracle values, and with the
    browser-resource events recorded in a trace;
  - the summarize call and the command-line entry point, with the service
    response supplied as an oracle value.

Python exceptions are modelled by the PyErr type; a fallible step returns
Except PyErr. Strings are Lean strings; the per-node stripping of the text
extraction is modelled by String.trim.
-/

namespace Summarizer

/-- A node of a parsed HTML document: either a text node or an element with a
tag name and a list of children. Attributes are irrelevant to every code path
of the program and are omitted. -/
inductive Node where
  | text : String → Node
  | elem : String → List Node → Node
  deriving Repr

/-- Python exception values relevant to the program, each carrying the message
that str of the exception renders. -/
inductive PyErr where
  | requestError : String → PyErr
  | webDriverError : String → PyErr
  | apiError : String → PyErr
  | indexError : String → PyErr
  deriving Repr, DecidableEq

/-- The message of an exception, as rendered by str in Python. -/
def PyErr.message : PyErr → String
  | .requestError m => m
  | .webDriverError m => m
  | .apiError m => m
  | .indexError m => m

/-- Whether an exception is an error of the external text-generation service
(anthropic.APIError in the source). -/
def PyErr.isApiError : PyErr → Bool
  | .apiError _ => true
  | _ => false

/-- The tag names removed by Website._process_content before text extraction
(source line 114). -/
def excludedTags : List String :=
  ["script", "style", "img", "input", "iframe", "noscript"]

mutual
/-- Removal of the excluded elements, acting on one node: an excluded element
disappears with its whole subtree, any other node is kept with its children
cleaned. Models the find_all + decompose loop of Website._process_content. -/
def pruneNode : Node → Option Node
  | .text s => some (.text s)
  | .elem t cs =>
    if t ∈ excludedTags then none else some (.elem t (pruneList cs))
  termination_by structural n => n

/-- Removal of the excluded elements, acting on a list of sibling nodes. -/
def pruneList : List Node → List Node
  | [] => []
  | n :: rest =>
    match pruneNode n with
    | some m => m :: pruneList rest
    | none => pruneList rest
  termination_by structural l => l
end

mutual
/-- All text-node contents below a node, in document order. Models the
descendant-strings traversal used by get_text. -/
def nodeStrings : Node → List String
  | .text s => [s]
  | .elem _ cs => nodeStringsList cs
  termination_by structural n => n

/-- All text-node contents below a list of sibling nodes, in document order. -/
def nodeStringsList : List Node → List String
  | [] => []
  | n :: rest => nodeStrings n ++ nodeStringsList rest
  termination_by structural l => l
end

mutual
/-- Text-node contents below a node in document order, skipping the subtrees
of excluded elements. This is the traversal the specification describes:
content originating inside an excluded element never appears. -/
def visibleStrings : Node → List String
  | .text s => [s]
  | .elem t cs =>
    if t ∈ excludedTags then [] else visibleStringsList cs
  termination_by structural n => n

/-- Text-node contents below a list of siblings, skipping excluded subtrees. -/
def visibleStringsList : List Node → List String
  | [] => []
  | n :: rest => visibleStrings n ++ visibleStringsList rest
  termination_by structural l => l
end

mutual
/-- First element with the given tag, searching a node and its descendants in
document order. Models the library lookup behind soup.title and soup.body. -/
def findTagNode (tag : String) : Node → Option Node
  | .text _ => none
  | .elem t cs => if t = tag then some (.elem t cs) else findTagList tag cs
  termination_by structural n => n

/-- First element with the given tag below a list of siblings, in document
order. -/
def findTagList (tag : String) : List Node → Option Node
  | [] => none
  | n :: rest =>
    match findTagNode tag n with
    | some r => some r
    | none => findTagList tag rest
  termination_by structural l => l
end

mutual
/-- First element with the given tag in document order, not descending into
excluded elements: the document-side counterpart of searching the document
after the excluded elements have been removed. -/
def findVisibleNode (tag : String) : Node → Option Node
  | .text _ => none
  | .elem t cs =>
    if t ∈ excludedTags then none
    else if t = tag then some (.elem t cs)
    else findVisibleList tag cs
  termination_by structural n => n

/-- First element with the given tag below a list of siblings, not descending
into excluded elements. -/
def findVisibleList (tag : String) : List Node → Option Node
  | [] => none
  | n :: rest =>
    match findVisibleNode tag n with
    | some r => some r
    | none => findVisibleList tag rest
  termination_by structural l => l
end

/-- The string content of a node: the library semantics of Tag.string. A text
node is its own string; an element with exactly one child has the string of
that child; any other element (no children, or several) has none. -/
def nodeString : Node → Option String
  | .text s => some s
  | .elem _ [c] => nodeString c
  | .elem _ _ => none
  termination_by structural n => n

/-- The get_text call of Website._process_content with newline separator and
strip set: every descendant text node is stripped of leading and trailing
whitespace, empty results are dropped, and the remainder is joined with
newlines. -/
def get_text (n : Node) : String :=
  String.intercalate "\n" (((nodeStrings n).map String.trim).filter (fun s => s != ""))

/-- The title computed by Website._process_content (source line 111): the
string of the first title element, or the sentinel when no title element
exists. The value none models the Python None that Tag.string yields for a
title element without string content; the field is read before the excluded
elements are removed. -/
def processTitle (doc : List Node) : Option String :=
  match findTagList "title" doc with
  | some e => nodeString e
  | none => some "No title found"

/-- The text computed by Website._process_content (source line 118): after the
excluded elements are removed, the get_text of the first body element, or the
empty string when no body element remains. -/
def processText (doc : List Node) : String :=
  match findTagList "body" (pruneList doc) with
  | some b => get_text b
  | none => ""

/-- The text extraction as the specification words it: the concatenation of
the visible text nodes under the document body, separated by newlines, with
leading and trailing whitespace trimmed per node, where content inside an
element of an excluded kind is not visible and a text node counts as visible
text exactly when something remains of it after trimming; the empty string
when no body element exists. -/
def spec_text (doc : List Node) : String :=
  match findVisibleList "body" doc with
  | some b =>
    String.intercalate "\n" (((visibleStrings b).map String.trim).filter (fun s => s != ""))
  | none => ""

/-- The node a kept element turns into when the excluded elements are removed
from its subtree: the shape of the members of a pruned sibling list. -/
def pruneKeep : Node → Node
  | .text s => .text s
  | .elem t cs => .elem t (pruneList cs)

/-- The page-content value the extractor produces: url, title and cleaned
text. The title is an Option because the source can store the Python None
there (see processTitle). -/
structure Website where
  url : String
  title : Option String
  text : String
  deriving Repr, DecidableEq

/-- Builds the Website value that Website._process_content leaves behind for a
given final url and parsed document. -/
def process_content (url : String) (doc : List Node) : Website :=
  { url := url, title := processTitle doc, text := processText doc }

/-- The scheme test of Website.__init__ (source line 67): whether the input
starts with one of the two recognized scheme prefixes. Modelled on the
character list of the string, matching the Python startswith tuple test. -/
def startswithSchemes (url : String) : Bool :=
  "http://".data.isPrefixOf url.data || "https://".data.isPrefixOf url.data

/-- The url normalization of Website.__init__ (source lines 66 to 69). -/
def normalizeUrl (url : String) : String :=
  if startswithSchemes url then url else "https://" ++ url

/-- An HTTP response as the static path sees it: a status code and a body.
The body is carried in parsed form, because the lenient html parser used by
the program accepts arbitrary bytes; a failure of the GET call itself is
modelled by the surrounding Except. The status field is deliberately present
so that theorems can state that no code path reads it. -/
structure HttpResponse where
  status : Nat
  content : List Node
  deriving Repr

/-- Resource and control events recorded while the extractor runs. -/
inductive FetchEvent where
  | staticAttempt
  | dynamicAttempt
  | browserLaunched
  | browserQuit
  deriving Repr, DecidableEq

/-- The outcomes of the external interactions of one extractor invocation:
the result of the static GET (with parsing), the result of launching the
headless browser, and the result of navigating and reading the rendered page
source. Each is an oracle value, since the collaborators are opaque. -/
structure FetchWorld where
  getResult : Except PyErr HttpResponse
  launchResult : Except PyErr Unit
  pageSource : Except PyErr (List Node)

/-- Website._fetch_static: one GET, no status-code inspection, then
processing of whatever body came back; the GET exception, when one is raised,
is the only failure. -/
def fetch_static (getResult : Except PyErr HttpResponse) (url : String) :
    Except PyErr Website :=
  match getResult with
  | .error e => .error e
  | .ok resp => .ok (process_content url resp.content)

/-- Website._fetch_dynamic: launch the headless browser; when the launch
itself fails, that exception propagates and no browser exists to release.
After a successful launch, navigation and processing happen inside a block
whose finally clause always runs driver.quit, so the quit event is recorded
on the normal exit and on the raising exit alike. -/
def fetch_dynamic (w : FetchWorld) (url : String) :
    Except PyErr Website × List FetchEvent :=
  match w.launchResult with
  | .error e => (.error e, [.dynamicAttempt])
  | .ok _ =>
    match w.pageSource with
    | .ok doc =>
      (.ok (process_content url doc), [.dynamicAttempt, .browserLaunched, .browserQuit])
    | .error e =>
      (.error e, [.dynamicAttempt, .browserLaunched, .browserQuit])

/-- Website.__init__: normalize the url, try the static fetch, and on any
exception from it run the dynamic fetch once; whatever the dynamic fetch
returns or raises is the final outcome. Returns the constructed value or the
propagated exception, together with the event trace. -/
def Website.init (w : FetchWorld) (urlInput : String) :
    Except PyErr Website × List FetchEvent :=
  let url := normalizeUrl urlInput
  match fetch_static w.getResult url with
  | .ok site => (.ok site, [.staticAttempt])
  | .error _ =>
    let d := fetch_dynamic w url
    (d.1, .staticAttempt :: d.2)

/-- Rendering of a Python value that is either a string or None inside an
f-string: None prints as the four-letter word None. -/
def pyStr : Option String → String
  | some s => s
  | none => "None"

/-- The fixed instruction sentence of the user prompt (source lines 132 to
134), without the two trailing newlines. -/
def summaryInstruction : String :=
  "The contents of this website is as follows; please provide a short summary of this website in markdown. If it includes news or announcements, then summarize these too."

/-- user_prompt_for: the three concatenations of source lines 131 to 136. -/
def user_prompt_for (site : Website) : String :=
  let p1 := "You are looking at a website titled " ++ pyStr site.title ++ ". "
  let p2 := p1 ++ "The contents of this website is as follows; please provide a short summary of this website in markdown. If it includes news or announcements, then summarize these too.\n\n"
  p2 ++ site.text

/-- One content segment of the text-generation service response. -/
structure ContentBlock where
  text : String
  deriving Repr, DecidableEq

/-- summarize (source lines 139 to 167): construct the Website (any exception
from the extractor propagates), call the service (its result, a content list
or an exception, is an oracle), and return the text of the first segment of
the content list. An empty content list makes the subscript raise the Python
IndexError with its standard message; no handler intervenes. -/
def summarize (w : FetchWorld) (apiResult : Except PyErr (List ContentBlock))
    (url : String) : Except PyErr String :=
  match (Website.init w url).1 with
  | .error e => .error e
  | .ok _ =>
    match apiResult with
    | .error e => .error e
    | .ok content =>
      match content with
      | [] => .error (.indexError "list index out of range")
      | b :: _ => .ok b.text

/-- The lines printed by main when the argument count is wrong (source lines
179 to 183). -/
def usageLines : List String :=
  [ "Usage: python summarize.py <url>"
  , "Examples:"
  , "  python summarize.py cnn.com"
  , "  python summarize.py https://www.bbc.com"
  , "\nNote: Make sure you have set the ANTHROPIC_API_KEY environment variable" ]

/-- The observable outcome of one command-line run: exit code, printed lines,
and whether the extractor was ever invoked. -/
structure MainOutcome where
  exitCode : Nat
  stdout : List String
  extractorInvoked : Bool
  deriving Repr, DecidableEq

/-- main (source lines 170 to 192): with any argument count other than one
url the usage text is printed and the process exits with code 1 before any
extraction; with one url, summarize runs, its result is printed and the exit
code is 0, and any exception it raises is printed as an Error line with exit
code 1. -/
def main (w : FetchWorld) (apiResult : Except PyErr (List ContentBlock))
    (argv : List String) : MainOutcome :=
  match argv with
  | [_, url] =>
    match summarize w apiResult url with
    | .ok summary => { exitCode := 0, stdout := [summary], extractorInvoked := true }
    | .error e =>
      { exitCode := 1, stdout := ["Error: " ++ e.message], extractorInvoked := true }
  | _ => { exitCode := 1, stdout := usageLines, extractorInvoked := false }

/-- A sample parsed page with a body, used to instantiate theorems. -/
def sampleDoc : List Node :=
  [Node.elem "html"
    [ Node.elem "head" [Node.elem "title" [Node.text "Example Domain"]]
    , Node.elem "body" [Node.text "This domain is for use in examples."] ]]

/-- A sample successful HTTP response. -/
def sampleResponse : HttpResponse := { status := 200, content := sampleDoc }

/-- A world where the static fetch succeeds. -/
def okWorld : FetchWorld :=
  { getResult := .ok sampleResponse, launchResult := .ok (), pageSource := .ok [] }

/-- A world where the static fetch raises and the dynamic fetch succeeds. -/
def staticFailWorld : FetchWorld :=
  { getResult := .error (.requestError "connection refused")
  , launchResult := .ok ()
  , pageSource := .ok sampleDoc }

/-- A world where the static fetch raises and navigation raises after the
browser was launched. -/
def bothFailWorld : FetchWorld :=
  { getResult := .error (.requestError "connection refused")
  , launchResult := .ok ()
  , pageSource := .error (.webDriverError "timeout") }

/-- Joint induction over nodes and sibling lists, from the generated
recursors of the nested inductive type. -/
theorem nodeInduction {P : Node → Prop} {Q : List Node → Prop}
    (htext : ∀ s, P (.text s))
    (helem : ∀ t cs, Q cs → P (.elem t cs))
    (hnil : Q [])
    (hcons : ∀ n l, P n → Q l → Q (n :: l)) :
    (∀ n, P n) ∧ (∀ l, Q l) :=
  ⟨fun n => Node.rec htext helem hnil hcons n,
   fun l => Node.rec_1 htext helem hnil hcons l⟩

/-- Removing the excluded elements first and then collecting every text node
gives the same strings as one traversal that skips the excluded subtrees. -/
theorem prune_strings :
    (∀ n : Node, ((pruneNode n).elim [] nodeStrings) = visibleStrings n) ∧
    (∀ l : List Node, nodeStringsList (pruneList l) = visibleStringsList l) := by
  apply nodeInduction
  · intro s; rfl
  · intro t cs ih
    by_cases h : t ∈ excludedTags
    · simp [pruneNode, visibleStrings, h]
    · simp [pruneNode, visibleStrings, h, nodeStrings, ih]
  · rfl
  · intro n l ihn ihl
    cases hp : pruneNode n with
    | none =>
      rw [hp] at ihn
      simp only [Option.elim] at ihn
      simp [pruneList, hp, visibleStringsList, ← ihn, ihl, nodeStringsList]
    | some m =>
      rw [hp] at ihn
      simp only [Option.elim] at ihn
      simp [pruneList, hp, nodeStringsList, visibleStringsList, ihn, ihl]

/-- Searching for a tag after the excluded elements have been removed is the
same as a search over the original document that does not descend into
excluded elements, up to removal inside the found subtree. -/
theorem find_prune (tag : String) :
    (∀ n : Node,
      ((pruneNode n).elim none (findTagNode tag)) = (findVisibleNode tag n).map pruneKeep) ∧
    (∀ l : List Node,
      findTagList tag (pruneList l) = (findVisibleList tag l).map pruneKeep) := by
  apply nodeInduction
  · intro s; rfl
  · intro t cs ih
    by_cases hx : t ∈ excludedTags
    · simp [pruneNode, findVisibleNode, hx]
    · by_cases ht : t = tag
      · subst ht
        simp [pruneNode, findVisibleNode, hx, findTagNode, pruneKeep]
      · simp [pruneNode, findVisibleNode, hx, ht, findTagNode, ih]
  · rfl
  · intro n l ihn ihl
    cases hp : pruneNode n with
    | none =>
      rw [hp] at ihn
      simp only [Option.elim] at ihn
      have hv : findVisibleNode tag n = none := by
        cases hv2 : findVisibleNode tag n
        · rfl
        · rw [hv2] at ihn; cases ihn
      simp [pruneList, hp, findTagList, findVisibleList, hv, ihl]
    | some m =>
      rw [hp] at ihn
      simp only [Option.elim] at ihn
      cases hv : findVisibleNode tag n with
      | some v =>
        rw [hv] at ihn
        simp [pruneList, hp, findTagList, findVisibleList, hv, ihn]
      | none =>
        rw [hv] at ihn
        simp [pruneList, hp, findTagList, findVisibleList, hv, ihn, ihl]

/-- Whatever the visibility-aware search returns is an element carrying the
searched tag. -/
theorem find_visible_shape (tag : String) :
    (∀ n : Node, ∀ v, findVisibleNode tag n = some v → ∃ cs, v = Node.elem tag cs) ∧
    (∀ l : List Node, ∀ v, findVisibleList tag l = some v → ∃ cs, v = Node.elem tag cs) := by
  apply nodeInduction
  · intro s v h; cases h
  · intro t cs ih v h
    by_cases hx : t ∈ excludedTags
    · simp [findVisibleNode, hx] at h
    · by_cases ht : t = tag
      · subst ht
        simp [findVisibleNode, hx] at h
        exact ⟨cs, h.symm⟩
      · simp only [findVisibleNode, if_neg hx, if_neg ht] at h
        exact ih v h
  · intro v h; cases h
  · intro n l ihn ihl v h
    simp only [findVisibleList] at h
    cases hv : findVisibleNode tag n with
    | some r =>
      rw [hv] at h
      simp only at h
      injection h with h2
      subst h2
      exact ihn r hv
    | none =>
      rw [hv] at h
      simp only at h
      exact ihl v h

/-- C2: for every parsed document, the processing step sets the extracted
text to the concatenation of the visible text nodes under the document body,
separated by newlines and trimmed per node, after the script, style, img,
input, iframe and noscript elements have been removed, so that no content
from inside those elements appears and the remaining visible text keeps its
document order; and the text is the empty string when no body element exists.
Stated as: the text computed by the code equals the extraction that the
specification describes. -/
theorem text_extraction_matches_spec (doc : List Node) :
    processText doc = spec_text doc := by
  unfold processText spec_text
  rw [(find_prune "body").2 doc]
  cases hv : findVisibleList "body" doc with
  | none => rfl
  | some v =>
    obtain ⟨cs, rfl⟩ := (find_visible_shape "body").2 doc v hv
    have hb : "body" ∉ excludedTags := by decide
    simp only [Option.map_some']
    unfold get_text pruneKeep
    simp only [nodeStrings, visibleStrings, if_neg hb]
    rw [(prune_strings).2 cs]

/-- C3: normalization prepends the secure scheme prefix exactly once when the
input lacks a recognized scheme prefix, leaves prefixed inputs unchanged, and
never double-prefixes: the result always carries a scheme and normalizing
again changes nothing. -/
theorem normalization_prepends_once (url : String) :
    (startswithSchemes url = false → normalizeUrl url = "https://" ++ url) ∧
    (startswithSchemes url = true → normalizeUrl url = url) ∧
    startswithSchemes (normalizeUrl url) = true ∧
    normalizeUrl (normalizeUrl url) = normalizeUrl url := by
  have hpre : ∀ s : String, startswithSchemes ("https://" ++ s) = true := by
    intro s
    have h2 : ("https://".data).isPrefixOf (("https://" ++ s).data) = true := by
      rw [String.data_append, List.isPrefixOf_iff_prefix]
      exact List.prefix_append _ _
    unfold startswithSchemes
    rw [h2, Bool.or_true]
  by_cases h : startswithSchemes url = true
  · refine ⟨fun hf => ?_, fun _ => ?_, ?_, ?_⟩
    · rw [h] at hf; cases hf
    · simp [normalizeUrl, h]
    · simp [normalizeUrl, h]
    · simp [normalizeUrl, h]
  · have hb : startswithSchemes url = false := by
      cases hx : startswithSchemes url
      · rfl
      · exact absurd hx h
    have hn : normalizeUrl url = "https://" ++ url := by
      simp [normalizeUrl, hb]
    refine ⟨fun _ => hn, fun ht => absurd ht h, ?_, ?_⟩
    · rw [hn]; exact hpre url
    · rw [hn, normalizeUrl, if_pos (hpre url)]

/-- Witness for C3 at the two example inputs of the source header: a bare
host gets the prefix, an already prefixed url is unchanged. -/
theorem normalization_prepends_once_witness :
    normalizeUrl "cnn.com" = "https://cnn.com" ∧
    normalizeUrl "https://www.bbc.com" = "https://www.bbc.com" := by
  constructor
  · exact ((normalization_prepends_once "cnn.com").1 (by decide)).trans rfl
  · exact (normalization_prepends_once "https://www.bbc.com").2.1 (by decide)

/-- C4: the built user prompt is exactly the literal title, the fixed
summarization instruction, one blank line made of two newlines, and then the
extracted text verbatim. -/
theorem user_prompt_layout (url t x : String) :
    user_prompt_for { url := url, title := some t, text := x } =
      "You are looking at a website titled " ++ t ++ ". " ++
        summaryInstruction ++ "\n\n" ++ x := by
  unfold user_prompt_for pyStr summaryInstruction
  have hsplit :
      ("The contents of this website is as follows; please provide a short summary of this website in markdown. If it includes news or announcements, then summarize these too.\n\n" : String) =
        "The contents of this website is as follows; please provide a short summary of this website in markdown. If it includes news or announcements, then summarize these too." ++ "\n\n" :=
    rfl
  rw [hsplit]
  simp only [String.append_assoc]

/-- C8: a document without a title element yields the sentinel title, and a
document whose first title element is exactly a title holding the text
Example yields the title Example. -/
theorem title_extraction (doc : List Node) :
    (findTagList "title" doc = none → processTitle doc = some "No title found") ∧
    (findTagList "title" doc = some (Node.elem "title" [Node.text "Example"]) →
      processTitle doc = some "Example") := by
  constructor
  · intro h; unfold processTitle; rw [h]
  · intro h; unfold processTitle; rw [h]; rfl

/-- Witness for C8: a concrete document with no title element and a concrete
document with a title holding Example. -/
theorem title_extraction_witness :
    processTitle [Node.elem "html" [Node.elem "body" [Node.text "x"]]] =
      some "No title found" ∧
    processTitle [Node.elem "head" [Node.elem "title" [Node.text "Example"]]] =
      some "Example" :=
  ⟨(title_extraction [Node.elem "html" [Node.elem "body" [Node.text "x"]]]).1 rfl,
   (title_extraction [Node.elem "head" [Node.elem "title" [Node.text "Example"]]]).2 rfl⟩

/-- C1: when the static retrieval step raises, dynamic retrieval runs exactly
once, every browser launch in the trace is matched by a quit event on the
same exit path, and an exception of the dynamic path itself propagates to the
caller unchanged, with no further fallback. -/
theorem static_failure_dynamic_once (w : FetchWorld) (urlInput : String)
    (e : PyErr) (h : w.getResult = .error e) :
    (Website.init w urlInput).2.count .dynamicAttempt = 1 ∧
    (Website.init w urlInput).2.count .browserQuit =
      (Website.init w urlInput).2.count .browserLaunched ∧
    (∀ e2, (fetch_dynamic w (normalizeUrl urlInput)).1 = .error e2 →
      (Website.init w urlInput).1 = .error e2) := by
  obtain ⟨g, launch, page⟩ := w
  simp only at h
  subst h
  refine ⟨?_, ?_, fun e2 he => he⟩
  · cases launch with
    | error el => rfl
    | ok u =>
      cases page with
      | ok d => rfl
      | error ep => rfl
  · cases launch with
    | error el => rfl
    | ok u =>
      cases page with
      | ok d => rfl
      | error ep => rfl

/-- Witness for C1: with a failing GET and a succeeding dynamic fetch the
trace has one dynamic attempt and balanced launch and quit events; with a
failing GET and a failing navigation the navigation error is the final
outcome. -/
theorem static_failure_dynamic_once_witness :
    ((Website.init staticFailWorld "cnn.com").2.count .dynamicAttempt = 1 ∧
     (Website.init staticFailWorld "cnn.com").2.count .browserQuit =
       (Website.init staticFailWorld "cnn.com").2.count .browserLaunched) ∧
    (Website.init bothFailWorld "cnn.com").1 = .error (.webDriverError "timeout") := by
  have h1 := static_failure_dynamic_once staticFailWorld "cnn.com"
    (.requestError "connection refused") rfl
  have h2 := static_failure_dynamic_once bothFailWorld "cnn.com"
    (.requestError "connection refused") rfl
  exact ⟨⟨h1.1, h1.2.1⟩, h2.2.2 (.webDriverError "timeout") rfl⟩

/-- C6: the extractor fails exactly when the static strategy fails and the
dynamic strategy also fails; in every other case it returns a page-content
value. -/
theorem fetch_error_iff_both_fail (w : FetchWorld) (urlInput : String) :
    (Website.init w urlInput).1.isOk = false ↔
      ((fetch_static w.getResult (normalizeUrl urlInput)).isOk = false ∧
       (fetch_dynamic w (normalizeUrl urlInput)).1.isOk = false) := by
  obtain ⟨g, launch, page⟩ := w
  cases g with
  | ok resp => simp [Website.init, fetch_static, Except.isOk, Except.toBool]
  | error e =>
    cases launch with
    | error el =>
      simp [Website.init, fetch_static, fetch_dynamic, Except.isOk, Except.toBool]
    | ok u =>
      cases page with
      | ok d =>
        simp [Website.init, fetch_static, fetch_dynamic, Except.isOk, Except.toBool]
      | error ep =>
        simp [Website.init, fetch_static, fetch_dynamic, Except.isOk, Except.toBool]

/-- Witness for C6 at a concrete world where the GET raises and the
navigation of the launched browser raises as well: the extractor fails. -/
theorem fetch_error_iff_both_fail_witness :
    (Website.init bothFailWorld "cnn.com").1.isOk = false :=
  (fetch_error_iff_both_fail bothFailWorld "cnn.com").2 ⟨rfl, rfl⟩

/-- C7: the static step performs no status-code check: a response with an
error status such as 404 is processed like any other, the result does not
depend on the status at all, only a raised GET exception makes the static
step fail, a successful GET never triggers the fallback, and a raised GET
exception always does. -/
theorem static_ignores_status (urlInput : String) (status status2 : Nat)
    (body : List Node) (e : PyErr) (launch : Except PyErr Unit)
    (page : Except PyErr (List Node)) :
    fetch_static (.ok { status := 404, content := body }) urlInput =
      .ok (process_content urlInput body) ∧
    fetch_static (.ok { status := status, content := body }) urlInput =
      fetch_static (.ok { status := status2, content := body }) urlInput ∧
    fetch_static (.error e) urlInput = .error e ∧
    (Website.init
      { getResult := .ok { status := status, content := body }
      , launchResult := launch, pageSource := page } urlInput).2.count
        .dynamicAttempt = 0 ∧
    (Website.init
      { getResult := .error e, launchResult := launch, pageSource := page }
      urlInput).2.count .dynamicAttempt = 1 := by
  refine ⟨rfl, rfl, rfl, rfl, ?_⟩
  cases launch with
  | error el => rfl
  | ok u =>
    cases page with
    | ok d => rfl
    | error ep => rfl

/-- Counterexample for C5 as stated: with a successful fetch and a service
response whose content list is empty, summarize does not surface an ApiError;
it raises the unchecked Python IndexError of the out-of-bounds subscript. -/
theorem summarize_empty_content_cex :
    summarize okWorld (.ok []) "example.com" =
      .error (.indexError "list index out of range") ∧
    PyErr.isApiError (.indexError "list index out of range") = false ∧
    summarize okWorld (.ok []) "example.com" ≠ .ok "" := by
  exact ⟨rfl, rfl, fun hcontra => Except.noConfusion hcontra⟩

/-- C5 amended: summarize returns the text of the first segment of the
response content list; when that list is empty the call fails with the
unchecked IndexError of the subscript, which is a fatal propagated error and
not a silent empty-string fallback, but it is not an ApiError. -/
theorem summarize_returns_first_segment (w : FetchWorld) (url : String)
    (site : Website) (b : ContentBlock) (rest : List ContentBlock)
    (h : (Website.init w url).1 = .ok site) :
    summarize w (.ok (b :: rest)) url = .ok b.text ∧
    summarize w (.ok []) url = .error (.indexError "list index out of range") := by
  unfold summarize
  rw [h]
  exact ⟨rfl, rfl⟩

/-- Witness for the amended C5 at a successful fetch: a one-segment response
returns that segment, the empty response raises the IndexError. -/
theorem summarize_returns_first_segment_witness :
    summarize okWorld (.ok [{ text := "# Summary" }]) "example.com" = .ok "# Summary" ∧
    summarize okWorld (.ok []) "example.com" =
      .error (.indexError "list index out of range") :=
  summarize_returns_first_segment okWorld "example.com"
    (process_content (normalizeUrl "example.com") sampleDoc)
    { text := "# Summary" } [] rfl

/-- C9: with any argument count other than one url the program prints the
usage text, with its two example invocations and the API-key reminder, and
exits with code 1 without invoking the extractor; with one url it prints the
summary and exits 0 on success, and on any exception it prints an Error line
with the exception message and exits 1. -/
theorem cli_contract (w : FetchWorld) (api : Except PyErr (List ContentBlock))
    (argv : List String) (prog url : String) :
    (argv.length ≠ 2 →
      main w api argv =
        { exitCode := 1, stdout := usageLines, extractorInvoked := false }) ∧
    (∀ s, summarize w api url = .ok s →
      main w api [prog, url] =
        { exitCode := 0, stdout := [s], extractorInvoked := true }) ∧
    (∀ e, summarize w api url = .error e →
      main w api [prog, url] =
        { exitCode := 1, stdout := ["Error: " ++ e.message], extractorInvoked := true }) := by
  refine ⟨?_, ?_, ?_⟩
  · intro h
    match argv, h with
    | [], _ => rfl
    | [a], _ => rfl
    | [a, b], h => exact absurd rfl h
    | a :: b :: c :: rest, _ => rfl
  · intro s hs
    have hred : main w api [prog, url] =
        (match summarize w api url with
          | Except.ok summary =>
            ({ exitCode := 0, stdout := [summary], extractorInvoked := true } : MainOutcome)
          | Except.error e =>
            { exitCode := 1, stdout := ["Error: " ++ e.message]
            , extractorInvoked := true }) := rfl
    rw [hred, hs]
  · intro e he
    have hred : main w api [prog, url] =
        (match summarize w api url with
          | Except.ok summary =>
            ({ exitCode := 0, stdout := [summary], extractorInvoked := true } : MainOutcome)
          | Except.error e =>
            { exitCode := 1, stdout := ["Error: " ++ e.message]
            , extractorInvoked := true }) := rfl
    rw [hred, he]

/-- Witness for C9: a run with a missing argument prints usage and exits 1
without extraction; a successful run prints the summary and exits 0; a run
whose dynamic fetch raises prints the Error line and exits 1. -/
theorem cli_contract_witness :
    main okWorld (.ok [{ text := "# Summary" }]) ["summarize.py"] =
      { exitCode := 1, stdout := usageLines, extractorInvoked := false } ∧
    main okWorld (.ok [{ text := "# Summary" }]) ["summarize.py", "example.com"] =
      { exitCode := 0, stdout := ["# Summary"], extractorInvoked := true } ∧
    main bothFailWorld (.ok [{ text := "# Summary" }]) ["summarize.py", "cnn.com"] =
      { exitCode := 1, stdout := ["Error: timeout"], extractorInvoked := true } := by
  refine ⟨?_, ?_, ?_⟩
  · exact (cli_contract okWorld (.ok [{ text := "# Summary" }]) ["summarize.py"]
      "summarize.py" "example.com").1 (by decide)
  · exact (cli_contract okWorld (.ok [{ text := "# Summary" }])
      ["summarize.py", "example.com"] "summarize.py" "example.com").2.1 "# Summary" rfl
  · exact (cli_contract bothFailWorld (.ok [{ text := "# Summary" }])
      ["summarize.py", "cnn.com"] "summarize.py" "cnn.com").2.2
      (.webDriverError "timeout") rfl

/-- C10: when a title element exists, the title is always the string content
of that element, never the sentinel; in particular, when the element has no
string content the processing stores the parser None, and the built user
prompt then renders that value as the word None in place of a title. -/
theorem missing_title_string_gives_none (doc : List Node) (e : Node)
    (url x : String) (h1 : findTagList "title" doc = some e)
    (h2 : nodeString e = none) :
    processTitle doc = nodeString e ∧
    processTitle doc = none ∧
    user_prompt_for { url := url, title := processTitle doc, text := x } =
      "You are looking at a website titled None. " ++
        summaryInstruction ++ "\n\n" ++ x := by
  have hp : processTitle doc = nodeString e := by
    unfold processTitle
    rw [h1]
  refine ⟨hp, hp.trans h2, ?_⟩
  rw [hp.trans h2]
  unfold user_prompt_for pyStr summaryInstruction
  have hsplit :
      ("The contents of this website is as follows; please provide a short summary of this website in markdown. If it includes news or announcements, then summarize these too.\n\n" : String) =
        "The contents of this website is as follows; please provide a short summary of this website in markdown. If it includes news or announcements, then summarize these too." ++ "\n\n" :=
    rfl
  rw [hsplit]
  have hhead :
      ("You are looking at a website titled " ++ "None" ++ ". " : String) =
        "You are looking at a website titled None. " := rfl
  rw [hhead]
  simp only [String.append_assoc]

/-- Witness for C10: a concrete document whose only title element is empty
yields the None title, and the prompt built from it contains the word None. -/
theorem missing_title_string_gives_none_witness :
    processTitle [Node.elem "title" []] = none ∧
    user_prompt_for
      { url := "https://x.example", title := processTitle [Node.elem "title" []]
      , text := "body text" } =
      "You are looking at a website titled None. " ++
        summaryInstruction ++ "\n\n" ++ "body text" := by
  have h := missing_title_string_gives_none [Node.elem "title" []]
    (Node.elem "title" []) "https://x.example" "body text" rfl rfl
  exact ⟨h.2.1, h.2.2⟩

end Summarizer
